import Mathlib

/-!
Verification of the `sonar-coverage-reporter` pipeline: a shallow embedding of
the coverage classifier (`spanish-coverage-classifier`), the filter-strategy
engine (`filter-strategies`), the CSV reporter (`papaparse-csv-reporter`) and
the report orchestrator (`default-report-orchestrator`), together with proofs
about their behaviour.

JavaScript `number` values are modelled as `JsNumber` (NaN, the two
infinities, and finite values represented by rationals).  Fallible operations
(`throw` in the source) are modelled with `Except`.  JavaScript `Set` and
object-key insertion order are modelled by association lists that preserve
first-insertion order.
-/

deriving instance DecidableEq for Except

namespace SonarCoverage

/-- A JavaScript `number`: NaN, +Infinity, -Infinity, or a finite value
(modelled as a rational). -/
inductive JsNumber where
  | nan
  | posInf
  | negInf
  | fin (q : ℚ)
deriving DecidableEq

/-- The argument of `classify` as seen at runtime: either not a `number` at
all (`typeof coverage !== 'number'`), or a `JsNumber`. -/
inductive CoverageInput where
  | notNumber
  | num (n : JsNumber)
deriving DecidableEq

/-- The `CoverageCategory` string enum from `types/project.ts`. -/
inductive CoverageCategory where
  | SIN_COVERAGE
  | NO_PASA_MINIMO
  | SI_PASA_MINIMO
deriving DecidableEq

/-- The string value of each `CoverageCategory` enum member. -/
def CoverageCategory.label : CoverageCategory → String
  | .SIN_COVERAGE => "Sin coverage"
  | .NO_PASA_MINIMO => "No pasa del mínimo esperado"
  | .SI_PASA_MINIMO => "Si pasa el mínimo esperado"

/-- Model of `CoverageValidationResult` from `types/classification.ts`. -/
structure CoverageValidationResult where
  isValid : Bool
  errorMessage : Option String
  normalizedValue : Option ℚ
deriving DecidableEq

/-- Model of `SpanishCoverageClassifier.validateCoverageInternal`: the checks are run
in source order (typeof, NaN, finiteness, negative, above 100). -/
def validateCoverageInternal (coverage : CoverageInput) : CoverageValidationResult :=
  match coverage with
  | .notNumber =>
      { isValid := false, errorMessage := some "Coverage must be a number",
        normalizedValue := none }
  | .num .nan =>
      { isValid := false, errorMessage := some "Coverage cannot be NaN",
        normalizedValue := none }
  | .num .posInf =>
      { isValid := false, errorMessage := some "Coverage must be a finite number",
        normalizedValue := none }
  | .num .negInf =>
      { isValid := false, errorMessage := some "Coverage must be a finite number",
        normalizedValue := none }
  | .num (.fin q) =>
      if q < 0 then
        { isValid := false, errorMessage := some "Coverage cannot be negative",
          normalizedValue := none }
      else if 100 < q then
        { isValid := false, errorMessage := some "Coverage cannot exceed 100%",
          normalizedValue := none }
      else
        { isValid := true, errorMessage := none, normalizedValue := some q }

/-- Model of `SpanishCoverageClassifier.getZeroCoverageCategory`. -/
def getZeroCoverageCategory : CoverageCategory := .SIN_COVERAGE

/-- Model of `SpanishCoverageClassifier.validateCoverage`. -/
def validateCoverage (coverage : CoverageInput) : Bool :=
  (validateCoverageInternal coverage).isValid

/-- Model of `SpanishCoverageClassifier.classify`.  A `throw` is modelled as
`Except.error` carrying the `Error` message.  The source's non-null assertion
`validation.normalizedValue!` is modelled by `Option.getD` (on the valid
branch the value is always present). -/
def classify (coverage : CoverageInput) (threshold : ℚ) : Except String CoverageCategory :=
  let validation := validateCoverageInternal coverage
  if validation.isValid = false then
    .error ("Invalid coverage value: " ++ validation.errorMessage.getD "")
  else
    let normalizedCoverage := validation.normalizedValue.getD 0
    if normalizedCoverage = 0 then
      .ok getZeroCoverageCategory
    else if threshold ≤ normalizedCoverage then
      .ok .SI_PASA_MINIMO
    else
      .ok .NO_PASA_MINIMO

example : classify (.num (.fin 0)) 50 = .ok .SIN_COVERAGE := rfl
example : classify (.num (.fin 50)) 50 = .ok .SI_PASA_MINIMO := rfl
example : classify (.num (.fin 30)) 50 = .ok .NO_PASA_MINIMO := rfl
example : classify (.num (.fin (-1))) 50
    = .error "Invalid coverage value: Coverage cannot be negative" := rfl

/-!
## Filter engine (`filter-strategies.ts`)

A `FilterStrategy` value models one object implementing the `FilterStrategy`
interface.  The concrete leaf strategies (coverage, name pattern, date range,
language, predicate) all filter by a per-project predicate; a leaf is modelled
by its `apply`/`canHandle`/`getName` behaviour.  `AndFilterStrategy` and
`OrFilterStrategy` hold their sub-strategy lists.  Element values of type `α`
play the role of object references: distinct references are distinct values,
so JavaScript `Set` membership (reference identity) is value equality. -/
inductive FilterStrategy (α : Type) where
  | base (nm : String) (canH : String → Bool) (app : List α → List α)
  | andS (strategies : List (FilterStrategy α))
  | orS (strategies : List (FilterStrategy α))

/-- Model of `PredicateFilterStrategy`: `apply` is `projects.filter(this.predicate)`;
`canHandle` accepts `'predicate'` and `'custom'`. -/
def PredicateFilterStrategy (p : α → Bool) (nm : String := "PredicateFilter") :
    FilterStrategy α :=
  .base nm (fun t => t = "predicate" || t = "custom") (fun projects => projects.filter p)

/-- One `Set.add` per element of `xs`, starting from the set contents `acc`
(as a list in insertion order): models
`filtered.forEach(project => results.add(project))`. -/
def setAddAll [DecidableEq α] (acc : List α) (xs : List α) : List α :=
  xs.foldl (fun a x => if x ∈ a then a else a ++ [x]) acc

mutual

/-- Model of `FilterStrategy.apply`.
* leaves apply their own filter;
* `AndFilterStrategy.apply` is `strategies.reduce((filtered, s) => s.apply(filtered), projects)`;
* `OrFilterStrategy.apply` returns `projects` when the strategy list is empty,
  and otherwise accumulates each `strategy.apply(projects)` into a `Set`
  (insertion order, reference identity) and returns `Array.from` of it. -/
def FilterStrategy.apply [DecidableEq α] : FilterStrategy α → List α → List α
  | .base _ _ f, projects => f projects
  | .andS strategies, projects => applyChain strategies projects
  | .orS strategies, projects =>
      match strategies with
      | [] => projects
      | s :: rest => orRun (s :: rest) projects []

/-- The fold inside `AndFilterStrategy.apply`. -/
def applyChain [DecidableEq α] : List (FilterStrategy α) → List α → List α
  | [], projects => projects
  | s :: rest, projects => applyChain rest (s.apply projects)

/-- The `for (const strategy of this.strategies)` loop inside
`OrFilterStrategy.apply`, with the `Set` contents threaded as `results`. -/
def orRun [DecidableEq α] :
    List (FilterStrategy α) → List α → List α → List α
  | [], _, results => results
  | s :: rest, projects, results =>
      orRun rest projects (setAddAll results (s.apply projects))

end

/-- Model of `FilterStrategy.canHandle`. -/
def FilterStrategy.canHandle : FilterStrategy α → String → Bool
  | .base _ c _, t => c t
  | .andS _, t => t = "and" || t = "combined"
  | .orS _, t => t = "or"

/-- One call on a `ProjectFilterBuilder`. -/
inductive BuilderOp (α : Type) where
  | addStrategy (s : FilterStrategy α)
  | addPredicate (p : α → Bool)
  | andOp (filters : List (FilterStrategy α))
  | orOp (filters : List (FilterStrategy α))

/-- The `strategies` array a `ProjectFilterBuilder` has accumulated after a
sequence of calls: `addStrategy` pushes the strategy, `addPredicate` pushes a
`PredicateFilterStrategy`, `and`/`or` push a single combined strategy. -/
def runBuilderOps (ops : List (BuilderOp α)) : List (FilterStrategy α) :=
  ops.foldl
    (fun strategies op =>
      match op with
      | .addStrategy s => strategies ++ [s]
      | .addPredicate p => strategies ++ [PredicateFilterStrategy p]
      | .andOp filters => strategies ++ [.andS filters]
      | .orOp filters => strategies ++ [.orS filters])
    []

/-- Model of `ProjectFilterBuilder.build`. -/
def build (strategies : List (FilterStrategy α)) : FilterStrategy α :=
  match strategies with
  | [] => PredicateFilterStrategy (fun _ => true) "NoOpFilter"
  | [s] => s
  | _ => .andS strategies

/-- De-duplication keeping the first occurrence, in encounter order.  Used to
state the specified OR-combination semantics. -/
def dedupFirstSeen [DecidableEq α] (xs : List α) : List α :=
  setAddAll [] xs

/-- Modelled from the spec: "OR-combination: union of each sub-strategy
applied independently to the original collection (not chained), de-duplicated
by identity, with encounter order preserved as first-seen". -/
def specOrUnion [DecidableEq α] (strategies : List (FilterStrategy α))
    (projects : List α) : List α :=
  dedupFirstSeen (List.flatten (strategies.map (fun s => s.apply projects)))

example :
    (FilterStrategy.orS
      [PredicateFilterStrategy (fun n => n < 3),
       PredicateFilterStrategy (fun n => 2 ≤ n)]).apply [1, 2, 3, 4]
    = [1, 2, 3, 4] := by decide

example :
    (FilterStrategy.orS ([] : List (FilterStrategy ℕ))).apply [5, 6] = [5, 6] := by
  decide

/-!
## CSV reporter (`papaparse-csv-reporter.ts`)

`validateData` inspects its argument with `Array.isArray` and `typeof`
checks, so the reporter input is modelled at the JavaScript-value level: a
`JVal` is the runtime value found in a field, and an item/project slot is
either a falsy value or an object with the fields the reporter reads. -/

/-- A runtime field value as far as the reporter's `typeof` checks and row
construction observe it. -/
inductive JVal where
  | vstr (s : String)
  | vnum (n : JsNumber)
  | vundefined
  | vother
deriving DecidableEq

/-- Model of `typeof v === 'string'`. -/
def typeofString : JVal → Bool
  | .vstr _ => true
  | _ => false

/-- Model of `typeof v === 'number'` (NaN and the infinities are numbers). -/
def typeofNumber : JVal → Bool
  | .vnum _ => true
  | _ => false

/-- A slot that the source checks for truthiness before reading fields. -/
inductive MaybeObj (β : Type) where
  | falsy
  | obj (fields : β)
deriving DecidableEq

/-- The fields of `item.project` that the reporter reads. -/
structure JsProjectFields where
  name : JVal
  coveragePercent : JVal
deriving DecidableEq

/-- The fields of a `CategorizedProject` item that the reporter reads. -/
structure JsItemFields where
  project : MaybeObj JsProjectFields
  category : JVal
  threshold : JVal
deriving DecidableEq

/-- One element of the `data` array. -/
abbrev JsItem := MaybeObj JsItemFields

/-- The `data` argument: either not an array at all, or an array of items. -/
inductive CsvInput where
  | notArray
  | arr (items : List JsItem)
deriving DecidableEq

/-- The `data.every(item => ...)` callback inside
`PapaparseCsvReporter.validateData`. -/
def validateItem (item : JsItem) : Bool :=
  match item with
  | .falsy => false
  | .obj fields =>
      match fields.project with
      | .falsy => false
      | .obj project =>
          typeofString project.name &&
          typeofNumber project.coveragePercent &&
          typeofString fields.category &&
          typeofNumber fields.threshold

/-- Model of `PapaparseCsvReporter.validateData`. -/
def validateData (data : CsvInput) : Bool :=
  match data with
  | .notArray => false
  | .arr items =>
      if items.length = 0 then
        true
      else
        items.all validateItem

/-- The `numberFormat` part of `CsvConfig`, with both fields present (the
shape of `DEFAULT_CSV_CONFIG.numberFormat`). -/
structure NumberFormatM where
  decimalPlaces : ℕ
  includePercentSign : Bool
deriving DecidableEq

/-- A fully merged `Required<CsvConfig>`. -/
structure CsvConfigM where
  headers : List String
  delimiter : String
  includeHeaders : Bool
  columnMapping : List (String × String)
  numberFormat : NumberFormatM
deriving DecidableEq

/-- A user-supplied `CsvConfig`, every field optional. -/
structure CsvConfigOpt where
  headers : Option (List String) := none
  delimiter : Option String := none
  includeHeaders : Option Bool := none
  columnMapping : Option (List (String × String)) := none
  numberFormat : Option NumberFormatM := none
deriving DecidableEq

/-- Model of `DEFAULT_CSV_CONFIG`. -/
def DEFAULT_CSV_CONFIG : CsvConfigM :=
  { headers := ["repository", "coverage_percent", "category"]
    delimiter := ","
    includeHeaders := true
    columnMapping := []
    numberFormat := { decimalPlaces := 2, includePercentSign := false } }

/-- The spread `{ ...DEFAULT_CSV_CONFIG, ...config }`: fields present in
`config` replace the defaults wholesale. -/
def mergeCsvConfig (config : CsvConfigOpt) : CsvConfigM :=
  { headers := config.headers.getD DEFAULT_CSV_CONFIG.headers
    delimiter := config.delimiter.getD DEFAULT_CSV_CONFIG.delimiter
    includeHeaders := config.includeHeaders.getD DEFAULT_CSV_CONFIG.includeHeaders
    columnMapping := config.columnMapping.getD DEFAULT_CSV_CONFIG.columnMapping
    numberFormat := config.numberFormat.getD DEFAULT_CSV_CONFIG.numberFormat }

/-- Model of `Number.prototype.toFixed` on a finite value: the integer `n` closest to
`q * 10 ^ d` (ties towards the larger `n`), printed with `d` digits after the
decimal point.  The scaled integer is `⌊q * 10 ^ d + 1 / 2⌋`, computed on the
numerator and denominator directly (the divisor is positive, so Euclidean
division is floor division). -/
def toFixedQ (d : ℕ) (q : ℚ) : String :=
  let scaled : ℤ := Int.ediv (2 * q.num * 10 ^ d + q.den) (2 * q.den)
  let sign := if scaled < 0 then "-" else ""
  let mag := scaled.natAbs
  if d = 0 then
    sign ++ toString mag
  else
    let intPart := mag / 10 ^ d
    let fracPart := mag % 10 ^ d
    let fracStr := toString fracPart
    let padded := String.mk (List.replicate (d - fracStr.length) '0') ++ fracStr
    sign ++ toString intPart ++ "." ++ padded

/-- Model of `toFixed` on a general `JsNumber` (NaN and the infinities print their
names). -/
def jsToFixed (d : ℕ) : JsNumber → String
  | .nan => "NaN"
  | .posInf => "Infinity"
  | .negInf => "-Infinity"
  | .fin q => toFixedQ d q

/-- Model of `PapaparseCsvReporter.formatCoverage`. -/
def formatCoverage (coverage : JsNumber) (numberFormat : NumberFormatM) : String :=
  let formatted := jsToFixed numberFormat.decimalPlaces coverage
  if numberFormat.includePercentSign then formatted ++ "%" else formatted

/-- How a field value is stringified when placed in a CSV cell (papaparse
coerces `null`/`undefined` to the empty string and other values via
`toString`). After `validateData` has passed only `vstr` values occur in the
string positions. -/
def jvalRender : JVal → String
  | .vstr s => s
  | .vnum n => jsToFixed 0 n
  | .vundefined => ""
  | .vother => ""

/-- A JavaScript object used as a CSV row: an association list in key
insertion order. -/
abbrev Row := List (String × String)

/-- Model of `row[k]`. -/
def objGet (row : Row) (k : String) : Option String :=
  (row.find? (fun kv => kv.1 = k)).map (·.2)

/-- Model of `row[k] = v`: overwrites in place if the key exists (keeping its
position), otherwise appends. -/
def objSet (row : Row) (k : String) (v : String) : Row :=
  if row.any (fun kv => kv.1 = k) then
    row.map (fun kv => if kv.1 = k then (k, v) else kv)
  else
    row ++ [(k, v)]

/-- Model of `{ ...a, ...b }`. -/
def objMerge (a b : Row) : Row :=
  b.foldl (fun acc kv => objSet acc kv.1 kv.2) a

/-- Model of `headers[i]`; an out-of-range access yields `undefined`, which coerces to
the key `"undefined"` when used as a computed object key. -/
def headerAt (headers : List String) (i : ℕ) : String :=
  (headers.get? i).getD "undefined"

/-- The `item.project` fields, read after validation has succeeded (on the
unreachable falsy branches the fields read as `undefined`). -/
def projectFieldsOf : JsItem → JsProjectFields
  | .obj fields =>
      match fields.project with
      | .obj project => project
      | .falsy => { name := .vundefined, coveragePercent := .vundefined }
  | .falsy => { name := .vundefined, coveragePercent := .vundefined }

/-- Model of `item.category`, likewise. -/
def categoryOf : JsItem → JVal
  | .obj fields => fields.category
  | .falsy => .vundefined

/-- The `coverage.toFixed` call requires a number; validation guarantees it
(an impossible non-number reads as NaN). -/
def asNumber : JVal → JsNumber
  | .vnum n => n
  | _ => .nan

/-- Model of `PapaparseCsvReporter.transformDataToCsvRows`. -/
def transformDataToCsvRows (data : List JsItem) (config : CsvConfigM) : List Row :=
  data.map fun item =>
    let project := projectFieldsOf item
    let coverage := formatCoverage (asNumber project.coveragePercent) config.numberFormat
    let row : Row :=
      objSet
        (objSet
          (objSet [] (headerAt config.headers 0) (jvalRender project.name))
          (headerAt config.headers 1) coverage)
        (headerAt config.headers 2) (jvalRender (categoryOf item))
    if config.columnMapping.length ≠ 0 then
      let mappedRow :=
        config.columnMapping.foldl
          (fun acc kv =>
            match objGet row kv.1 with
            | some v => objSet acc kv.2 v
            | none => acc)
          []
      objMerge row mappedRow
    else
      row

/-- Substring occurrence test used to model `str.indexOf(delimiter) > -1`. -/
def hasSubList [DecidableEq α] (sub : List α) : List α → Bool
  | [] => sub.isEmpty
  | x :: rest => sub.isPrefixOf (x :: rest) || hasSubList sub rest

/-- Model of `str.replace(/"/g, '""')` on the character list. -/
def escapeQuotes : List Char → List Char
  | [] => []
  | c :: rest =>
      if c = '"' then '"' :: '"' :: escapeQuotes rest else c :: escapeQuotes rest

/-- papaparse field quoting: a cell is wrapped in double quotes (with inner
quotes doubled) when it contains a quote, carriage return, line feed, BOM, or
the delimiter, or when it starts or ends with a space. -/
def quoteField (delimiter : String) (s : String) : String :=
  let cs := s.data
  let bad :=
    cs.any (fun c => c = '"' || c = '\r' || c = '\n' || c = Char.ofNat 0xFEFF) ||
    hasSubList delimiter.data cs ||
    (match cs.head? with | some c => c = ' ' | none => false) ||
    (match cs.getLast? with | some c => c = ' ' | none => false)
  if bad then
    String.mk ('"' :: (escapeQuotes cs ++ ['"']))
  else
    s

/-- Join with a separator (the `join(delimiter)` / newline join inside
papaparse's serializer). -/
def joinWith (sep : String) : List String → String
  | [] => ""
  | [x] => x
  | x :: y :: rest => x ++ sep ++ joinWith sep (y :: rest)

/-- Model of `Papa.unparse` on an array of row objects with explicit `columns`: an
empty data array serializes to the empty string (papaparse takes the
field-less branch); otherwise the header row (when enabled) and one line per
row, cells looked up by column name (missing keys print as empty), joined
with CRLF. -/
def unparse (delimiter : String) (header : Bool) (columns : List String)
    (rows : List Row) : String :=
  match rows with
  | [] => ""
  | _ =>
      let renderLine : List String → String := fun cells =>
        joinWith delimiter (cells.map (quoteField delimiter))
      let headerLines := if header then [renderLine columns] else []
      let dataLines :=
        rows.map fun row => renderLine (columns.map fun c => (objGet row c).getD "")
      joinWith "\r\n" (headerLines ++ dataLines)

/-- Model of `CsvResult` (the `generatedAt` clock value is omitted). -/
structure CsvResultM where
  content : String
  rowCount : ℕ
  configUsed : CsvConfigM
deriving DecidableEq

/-- Model of `PapaparseCsvReporter.generateDetailed`; the `throw` on invalid data is
an `Except.error` with the `Error` message. -/
def generateDetailed (data : CsvInput) (config : CsvConfigOpt) :
    Except String CsvResultM :=
  let mergedConfig := mergeCsvConfig config
  if validateData data = false then
    .error "Invalid data provided for CSV generation"
  else
    let items := match data with | .arr items => items | .notArray => []
    let csvData := transformDataToCsvRows items mergedConfig
    let csvContent :=
      unparse mergedConfig.delimiter mergedConfig.includeHeaders
        mergedConfig.headers csvData
    .ok { content := csvContent, rowCount := items.length, configUsed := mergedConfig }

/-- Model of `PapaparseCsvReporter.generate`. -/
def generate (data : CsvInput) (config : CsvConfigOpt) : Except String String :=
  (generateDetailed data config).map (·.content)

/-- Model of `PapaparseCsvReporter.writeToFile`: the underlying `writeFile` outcome is
`raw`; an I/O failure is re-thrown with the wrapping message. -/
def writeToFile (raw : Except String Unit) (path : String) : Except String Unit :=
  match raw with
  | .ok _ => .ok ()
  | .error m =>
      .error ("Failed to write CSV file to " ++ path ++ ": " ++ m)

/-!
## Orchestrator (`default-report-orchestrator.ts`)

`generateReport` awaits the external collaborators (authenticate, fetch,
file write); their outcomes are inputs of the model (`Env`).  A thrown
JavaScript value is either an `Error` instance (modelled by its message) or
the plain object produced by `wrapError`'s cast. -/

/-- Model of `ProjectData` as the orchestrator consumes it. -/
structure ProjectDataM where
  name : String
  key : String
  coveragePercent : JsNumber
deriving DecidableEq

/-- Model of `CategorizedProject`. -/
structure CategorizedProjectM where
  project : ProjectDataM
  category : CoverageCategory
  threshold : ℚ
deriving DecidableEq

/-- The runtime value a `CategorizedProject` presents to the reporter
(`CoverageCategory` is a string enum, so `category` is its label). -/
def CategorizedProjectM.toJsItem (cp : CategorizedProjectM) : JsItem :=
  .obj { project := .obj { name := .vstr cp.project.name,
                           coveragePercent := .vnum cp.project.coveragePercent },
         category := .vstr cp.category.label,
         threshold := .vnum (.fin cp.threshold) }

/-- The `phase` union type of `ReportError`. -/
inductive Phase where
  | config
  | fetch
  | filter
  | classify
  | generate
deriving DecidableEq

/-- The string spliced into the wrapped message for each phase. -/
def Phase.str : Phase → String
  | .config => "config"
  | .fetch => "fetch"
  | .filter => "filter"
  | .classify => "classify"
  | .generate => "generate"

/-- The plain object produced by `DefaultReportOrchestrator.wrapError` (the
`as ReportError` cast); `cause` holds the message of the causing `Error` when
there is one. -/
structure ReportErrorObj where
  name : String
  message : String
  phase : Phase
  cause : Option String
deriving DecidableEq

/-- A thrown JavaScript value as the orchestrator observes it: an `Error`
instance (created by a `new Error(...)` / constructor call) or the plain
object `wrapError` casts — which is *not* an `instanceof Error`. -/
inductive JsThrown where
  | errorInstance (message : String)
  | plainObject (o : ReportErrorObj)
deriving DecidableEq

/-- Model of `thrown instanceof Error` (also `instanceof ReportError`, since the cast
object was never constructed). -/
def JsThrown.instanceOfError : JsThrown → Bool
  | .errorInstance _ => true
  | .plainObject _ => false

/-- Model of `DefaultReportOrchestrator.wrapError`: `message` and `cause` come from
the caught value only when it is an `Error` instance. -/
def wrapError (error : JsThrown) (phase : Phase) : ReportErrorObj :=
  let message :=
    match error with
    | .errorInstance m => m
    | _ => "Unknown error occurred"
  let cause :=
    match error with
    | .errorInstance m => some m
    | _ => none
  { name := "ReportError"
    message := "Error in " ++ phase.str ++ " phase: " ++ message
    phase := phase
    cause := cause }

/-- Model of `SonarQubeConfig` (empty strings model missing/falsy values). -/
structure SonarQubeConfigM where
  baseUrl : String
  token : String
deriving DecidableEq

/-- Model of `ReportConfig`.  `ClassificationConfig.threshold` is a required field, so
it is carried directly; the `filters` field is present (and, as proved below,
never read by `generateReport`). -/
structure ReportConfigM where
  sonarqube : SonarQubeConfigM
  threshold : ℚ
  csv : CsvConfigOpt
  filters : List (FilterStrategy ProjectDataM)
  outputPath : Option String

/-- Outcomes of the external collaborators during one run: whether
`new URL(baseUrl)` succeeds, what `client.authenticate` and
`client.fetchProjects` do, and what the underlying `writeFile` does if it is
reached.  An `Except.error` carries the thrown `Error`'s message. -/
structure Env where
  isValidUrl : String → Bool
  authResult : Except String Unit
  fetchResult : Except String (List ProjectDataM)
  writeRaw : Except String Unit

/-- The `try` body of `DefaultReportOrchestrator.validateConfig`, whose
throws are `Error` instances. -/
def validateConfigInner (env : Env) (config : ReportConfigM) : Except String Bool :=
  if config.sonarqube.baseUrl = "" then
    .error "SonarQube baseUrl is required"
  else if config.sonarqube.token = "" then
    .error "SonarQube token is required"
  else if config.threshold < 0 ∨ 100 < config.threshold then
    .error "Classification threshold must be between 0 and 100"
  else if env.isValidUrl config.sonarqube.baseUrl = false then
    .error "Invalid SonarQube baseUrl format"
  else
    .ok true

/-- Model of `DefaultReportOrchestrator.validateConfig`: any failure of the body is
wrapped with phase `config` and re-thrown as the cast plain object. -/
def validateConfig (env : Env) (config : ReportConfigM) : Except JsThrown Bool :=
  match validateConfigInner env config with
  | .ok b => .ok b
  | .error m => .error (.plainObject (wrapError (.errorInstance m) .config))

/-- Model of `DefaultReportOrchestrator.applyFilters`:
`this.filters.reduce((filtered, filter) => filter.apply(filtered), projects)`. -/
def applyFilters (filters : List (FilterStrategy ProjectDataM))
    (projects : List ProjectDataM) : List ProjectDataM :=
  filters.foldl (fun filtered filter => filter.apply filtered) projects

/-- Model of `DefaultReportOrchestrator.classifyProjects`: each project is classified
with the configured threshold; a classifier throw aborts the map. -/
def classifyProjects (projects : List ProjectDataM) (threshold : ℚ) :
    Except String (List CategorizedProjectM) :=
  projects.mapM fun project =>
    (classify (.num project.coveragePercent) threshold).map fun category =>
      { project := project, category := category, threshold := threshold }

/-- Model of `DefaultReportOrchestrator.calculateCategoryCounts`: a plain object used
as a counter map, keys in first-insertion order. -/
def calculateCategoryCounts (projects : List CategorizedProjectM) :
    List (String × ℕ) :=
  projects.foldl
    (fun counts project =>
      let category := project.category.label
      if counts.any (fun kv => kv.1 = category) then
        counts.map (fun kv => if kv.1 = category then (kv.1, kv.2 + 1) else kv)
      else
        counts ++ [(category, 1)])
    []

/-- Model of `ReportResult` (the `generatedAt` / `processingTime` clock values are
omitted; `metadata.config` is the configuration echoed back verbatim). -/
structure ReportResultM where
  csvContent : String
  projectCount : ℕ
  categoryCounts : List (String × ℕ)
  metadataConfig : ReportConfigM

/-- Model of `DefaultReportOrchestrator.generateReport` for an orchestrator
constructed with `filters` (the other injected collaborators are the concrete
`SpanishCoverageClassifier` / `PapaparseCsvReporter` models, and the client
behaviour comes from `env`).  All six steps run inside one `try`; any thrown
value is wrapped by the single `catch` with phase `generate` and re-thrown. -/
def generateReport (filters : List (FilterStrategy ProjectDataM)) (env : Env)
    (config : ReportConfigM) : Except JsThrown ReportResultM :=
  match validateConfig env config with
  | .error e => .error (.plainObject (wrapError e .generate))
  | .ok _ =>
  match env.authResult with
  | .error m => .error (.plainObject (wrapError (.errorInstance m) .generate))
  | .ok _ =>
  match env.fetchResult with
  | .error m => .error (.plainObject (wrapError (.errorInstance m) .generate))
  | .ok projects =>
  let filteredProjects := applyFilters filters projects
  match classifyProjects filteredProjects config.threshold with
  | .error m => .error (.plainObject (wrapError (.errorInstance m) .generate))
  | .ok categorizedProjects =>
  match generate (.arr (categorizedProjects.map (·.toJsItem))) config.csv with
  | .error m => .error (.plainObject (wrapError (.errorInstance m) .generate))
  | .ok csvContent =>
  let write : Except JsThrown Unit :=
    match config.outputPath with
    | none => .ok ()
    | some path =>
        match writeToFile env.writeRaw path with
        | .ok _ => .ok ()
        | .error m => .error (.plainObject (wrapError (.errorInstance m) .generate))
  match write with
  | .error e => .error e
  | .ok _ =>
      .ok { csvContent := csvContent
            projectCount := categorizedProjects.length
            categoryCounts := calculateCategoryCounts categorizedProjects
            metadataConfig := config }

/-!
## Theorems
-/

/-- On a finite coverage value inside `[0, 100]`, validation succeeds and
`classify` reduces to the three-way comparison of the source. -/
theorem classify_eval (q t : ℚ) (h0 : 0 ≤ q) (h1 : q ≤ 100) :
    classify (.num (.fin q)) t =
      .ok (if q = 0 then .SIN_COVERAGE
           else if t ≤ q then .SI_PASA_MINIMO
           else .NO_PASA_MINIMO) := by
  simp only [classify, validateCoverageInternal, if_neg (not_lt.mpr h0),
    if_neg (not_lt.mpr h1), getZeroCoverageCategory]
  split <;> split <;> simp_all
  split <;> simp_all

/-- C1: for every coverage value `c` passing validation (finite, in
`[0, 100]`) and every threshold `t`, `classify` returns `SIN_COVERAGE`
exactly when `c = 0`; for `c > 0` it returns `SI_PASA_MINIMO` exactly when
`c ≥ t` and `NO_PASA_MINIMO` exactly when `c < t`; in particular
`classify t t = SI_PASA_MINIMO` for every `t` in `(0, 100]`. -/
theorem classify_correct (q t : ℚ) (h0 : 0 ≤ q) (h1 : q ≤ 100) :
    (classify (.num (.fin q)) t = .ok .SIN_COVERAGE ↔ q = 0) ∧
    (0 < q → (classify (.num (.fin q)) t = .ok .SI_PASA_MINIMO ↔ t ≤ q)) ∧
    (0 < q → (classify (.num (.fin q)) t = .ok .NO_PASA_MINIMO ↔ q < t)) ∧
    (0 < t → t ≤ 100 → classify (.num (.fin t)) t = .ok .SI_PASA_MINIMO) := by
  refine ⟨?_, ?_, ?_, ?_⟩
  · rw [classify_eval q t h0 h1]
    split <;> rename_i hq
    · simp [hq]
    · split <;> simp [hq]
  · intro hq
    rw [classify_eval q t h0 h1, if_neg (by linarith)]
    split <;> rename_i hle <;> simp [hle]
  · intro hq
    rw [classify_eval q t h0 h1, if_neg (by linarith)]
    split <;> rename_i hle <;> simp [hle, not_le.mp, lt_iff_not_le, hle]
  · intro ht0 ht1
    rw [classify_eval t t (le_of_lt ht0) ht1, if_neg (by linarith), if_pos le_rfl]

/-- Witness for `classify_correct` at `c = 50`, `t = 50`: the boundary case
classifies as `SI_PASA_MINIMO`. -/
theorem classify_correct_witness :
    (classify (.num (.fin 50)) 50 = .ok .SIN_COVERAGE ↔ (50 : ℚ) = 0) ∧
    (0 < (50 : ℚ) →
      (classify (.num (.fin 50)) 50 = .ok .SI_PASA_MINIMO ↔ (50 : ℚ) ≤ 50)) ∧
    (0 < (50 : ℚ) →
      (classify (.num (.fin 50)) 50 = .ok .NO_PASA_MINIMO ↔ (50 : ℚ) < 50)) ∧
    (0 < (50 : ℚ) → (50 : ℚ) ≤ 100 →
      classify (.num (.fin 50)) 50 = .ok .SI_PASA_MINIMO) :=
  classify_correct 50 50 (by norm_num) (by norm_num)

/-- C7: `classify` fails with the validation error naming the offending
condition for a non-number, NaN, the infinities, negative values and values
above 100, and succeeds for every finite coverage in `[0, 100]` whatever the
threshold is (the threshold is never validated here). -/
theorem classify_validation (q t : ℚ) :
    (classify .notNumber t
      = .error "Invalid coverage value: Coverage must be a number") ∧
    (classify (.num .nan) t
      = .error "Invalid coverage value: Coverage cannot be NaN") ∧
    (classify (.num .posInf) t
      = .error "Invalid coverage value: Coverage must be a finite number") ∧
    (classify (.num .negInf) t
      = .error "Invalid coverage value: Coverage must be a finite number") ∧
    (q < 0 → classify (.num (.fin q)) t
      = .error "Invalid coverage value: Coverage cannot be negative") ∧
    (100 < q → classify (.num (.fin q)) t
      = .error "Invalid coverage value: Coverage cannot exceed 100%") ∧
    (0 ≤ q → q ≤ 100 → ∃ category, classify (.num (.fin q)) t = .ok category) := by
  refine ⟨rfl, rfl, rfl, rfl, ?_, ?_, ?_⟩
  · intro h
    simp [classify, validateCoverageInternal, if_pos h]
  · intro h
    simp [classify, validateCoverageInternal, if_neg (not_lt.mpr (by linarith : (0:ℚ) ≤ q)),
      if_pos h]
  · intro h0 h1
    exact ⟨_, classify_eval q t h0 h1⟩

/-- Witness for `classify_validation` at `c ∈ {-1, 101}` (with NaN and
Infinity covered by the hypothesis-free conjuncts), `t = 50`. -/
theorem classify_validation_witness :
    classify (.num (.fin (-1))) 50
      = .error "Invalid coverage value: Coverage cannot be negative" ∧
    classify (.num (.fin 101)) 50
      = .error "Invalid coverage value: Coverage cannot exceed 100%" :=
  ⟨(classify_validation (-1) 50).2.2.2.2.1 (by norm_num),
   (classify_validation 101 50).2.2.2.2.2.1 (by norm_num)⟩

theorem setAddAll_append [DecidableEq α] (acc : List α) (a b : List α) :
    setAddAll acc (a ++ b) = setAddAll (setAddAll acc a) b := by
  simp [setAddAll, List.foldl_append]

/-- The OR loop accumulates, into the `Set`, the concatenation of each
sub-strategy's output over the original collection. -/
theorem orRun_eq [DecidableEq α] (ss : List (FilterStrategy α)) (ps acc : List α) :
    orRun ss ps acc
      = setAddAll acc (List.flatten (ss.map (fun s => s.apply ps))) := by
  induction ss generalizing acc with
  | nil => simp [orRun, setAddAll]
  | cons s rest ih => simp [orRun, ih, setAddAll_append]

/-- C4 (amended): for every *non-empty* list of sub-strategies, the
OR-combination equals the union of each sub-strategy applied independently to
the original collection, de-duplicated with first-seen order; for the empty
list the source returns the input collection unchanged. -/
theorem orS_apply_union [DecidableEq α] (ss : List (FilterStrategy α))
    (P : List α) :
    (ss ≠ [] → (FilterStrategy.orS ss).apply P = specOrUnion ss P) ∧
    (FilterStrategy.orS ([] : List (FilterStrategy α))).apply P = P := by
  constructor
  · intro h
    match ss, h with
    | s :: rest, _ =>
      show orRun (s :: rest) P [] = _
      rw [orRun_eq]
      rfl
  · rfl

/-- Witness for `orS_apply_union`: two concrete predicate strategies over
`ℕ`, overlapping outputs de-duplicated in first-seen order. -/
theorem orS_apply_union_witness :
    (FilterStrategy.orS
      [PredicateFilterStrategy (fun n => n ≤ 2),
       PredicateFilterStrategy (fun n => 2 ≤ n)]).apply [1, 2, 3]
      = specOrUnion
          [PredicateFilterStrategy (fun n => n ≤ 2),
           PredicateFilterStrategy (fun n => 2 ≤ n)] [1, 2, 3] :=
  (orS_apply_union
    [PredicateFilterStrategy (fun n => n ≤ 2),
     PredicateFilterStrategy (fun n => 2 ≤ n)] [1, 2, 3]).1 (by simp)

/-- C4 counterexample: with the empty sub-strategy list, `OrFilterStrategy`
returns the input collection unchanged, while the union of zero sub-strategy
outputs is empty — so the claimed identity fails for the empty list. -/
theorem orS_empty_counterexample :
    (FilterStrategy.orS ([] : List (FilterStrategy ℕ))).apply [1] = [1] ∧
    specOrUnion ([] : List (FilterStrategy ℕ)) [1] = [] := by
  refine ⟨rfl, ?_⟩
  rfl

/-- C5: after any sequence of builder calls, `build()` yields a pass-through
strategy when no strategy was accumulated, the single strategy itself when
exactly one was, and the AND-combination of all of them, in addition order,
otherwise. -/
theorem build_correct [DecidableEq α] (ops : List (BuilderOp α)) :
    (runBuilderOps ops = [] →
      ∀ P : List α, (build (runBuilderOps ops)).apply P = P) ∧
    (∀ s, runBuilderOps ops = [s] → build (runBuilderOps ops) = s) ∧
    (2 ≤ (runBuilderOps ops).length →
      build (runBuilderOps ops) = .andS (runBuilderOps ops)) := by
  refine ⟨?_, ?_, ?_⟩
  · intro h P
    rw [h]
    show List.filter (fun _ => true) P = P
    exact List.filter_true P
  · intro s h
    rw [h]
    rfl
  · intro h
    match hs : runBuilderOps ops, h with
    | s₁ :: s₂ :: rest, _ => rfl

/-- Witness for `build_correct`: an empty builder builds a strategy that
passes `[1, 2]` through unchanged, and a builder with two predicates builds
the AND-combination of the accumulated pair. -/
theorem build_correct_witness :
    (build (runBuilderOps ([] : List (BuilderOp ℕ)))).apply [1, 2] = [1, 2] ∧
    build (runBuilderOps
        [BuilderOp.addPredicate (fun n => n ≤ 2),
         BuilderOp.addPredicate (fun (_ : ℕ) => true)])
      = .andS (runBuilderOps
        [BuilderOp.addPredicate (fun n => n ≤ 2),
         BuilderOp.addPredicate (fun (_ : ℕ) => true)]) :=
  ⟨(build_correct []).1 rfl [1, 2],
   (build_correct _).2.2 (by simp [runBuilderOps])⟩

/-- The element rule exactly as the claim states it, for comparison with the
source's `validateData`: a **non-empty** string name, a numeric coverage, a
string category and a numeric threshold. -/
def claimedElementRule (item : JsItem) : Bool :=
  match item with
  | .falsy => false
  | .obj fields =>
      match fields.project with
      | .falsy => false
      | .obj project =>
          (match project.name with
           | .vstr s => !(s == "")
           | _ => false) &&
          typeofNumber project.coveragePercent &&
          typeofString fields.category &&
          typeofNumber fields.threshold

/-- C6 (amended): `validateData` returns `true` exactly when its input is an
array (the empty array is valid) whose every element is a truthy object with
a truthy `project` carrying a string name — *empty allowed* — a numeric
coverage, a string category and a numeric threshold; and `generateDetailed`
fails, before any CSV text is produced, whenever `validateData` rejects. -/
theorem validateData_correct (d : CsvInput) :
    (validateData d = true ↔
      ∃ items, d = .arr items ∧
        ∀ it ∈ items, ∃ fields project,
          it = .obj fields ∧ fields.project = .obj project ∧
          typeofString project.name = true ∧
          typeofNumber project.coveragePercent = true ∧
          typeofString fields.category = true ∧
          typeofNumber fields.threshold = true) ∧
    (validateData d = false → ∀ config,
      generateDetailed d config = .error "Invalid data provided for CSV generation") := by
  constructor
  · cases d with
    | notArray => simp [validateData]
    | arr items =>
      by_cases hlen : items.length = 0
      · rw [List.length_eq_zero] at hlen
        subst hlen
        simp [validateData]
      · rw [show validateData (.arr items) = items.all validateItem from by
          simp [validateData, hlen]]
        rw [List.all_eq_true]
        constructor
        · intro h
          refine ⟨items, rfl, fun it hit => ?_⟩
          have hitem := h it hit
          cases it with
          | falsy => simp [validateItem] at hitem
          | obj fields =>
            cases hp : fields.project with
            | falsy => simp [validateItem, hp] at hitem
            | obj project =>
              simp only [validateItem, hp, Bool.and_eq_true] at hitem
              exact ⟨fields, project, rfl, hp, hitem.1.1.1, hitem.1.1.2,
                hitem.1.2, hitem.2⟩
        · rintro ⟨items', heq, hall⟩ it hit
          cases heq
          obtain ⟨fields, project, hobj, hp, h1, h2, h3, h4⟩ := hall it hit
          subst hobj
          simp [validateItem, hp, h1, h2, h3, h4]
  · intro h config
    simp [generateDetailed, h]

/-- Witness for `validateData_correct` at a concrete valid input and at a
concrete invalid one (`notArray` fails and makes `generateDetailed` throw). -/
theorem validateData_correct_witness :
    (validateData (.arr []) = true ↔
      ∃ items, (CsvInput.arr []) = .arr items ∧
        ∀ it ∈ items, ∃ fields project,
          it = .obj fields ∧ fields.project = .obj project ∧
          typeofString project.name = true ∧
          typeofNumber project.coveragePercent = true ∧
          typeofString fields.category = true ∧
          typeofNumber fields.threshold = true) ∧
    generateDetailed .notArray {}
      = .error "Invalid data provided for CSV generation" :=
  ⟨(validateData_correct (.arr [])).1,
   (validateData_correct .notArray).2 rfl {}⟩

/-- The single-element input whose project name is the empty string. -/
def emptyNameInput : CsvInput :=
  .arr [.obj { project := .obj { name := .vstr "", coveragePercent := .vnum (.fin 50) },
               category := .vstr "Sin coverage", threshold := .vnum (.fin 50) }]

/-- C6 counterexample: the source's `validateData` only checks
`typeof name === 'string'`, so an element with an **empty** name passes
validation — contradicting the claimed non-empty-name rule — and
`generate` happily emits a CSV row for it. -/
theorem validateData_empty_name_counterexample :
    validateData emptyNameInput = true ∧
    claimedElementRule
      (.obj { project := .obj { name := .vstr "", coveragePercent := .vnum (.fin 50) },
              category := .vstr "Sin coverage", threshold := .vnum (.fin 50) }) = false ∧
    generate emptyNameInput {}
      = .ok ("repository,coverage_percent,category\r\n" ++ ",50.00,Sin coverage") := by
  refine ⟨by decide, by decide, by decide⟩

/-- A categorized project row used to exercise the column mapping. -/
def mappingInput : CsvInput :=
  .arr [.obj { project := .obj { name := .vstr "project-a",
                                 coveragePercent := .vnum (.fin 75) },
               category := .vstr "Si pasa el mínimo esperado",
               threshold := .vnum (.fin 50) }]

/-- C8: `columnMapping` never reaches the output.  The mapped keys are added
to each row object, but `Papa.unparse` is invoked with
`columns: mergedConfig.headers` — the *original* header names — so the CSV
generated with the mapping `repository → repo` is byte-for-byte the CSV
generated without it, and the renamed header never appears. -/
theorem columnMapping_has_no_effect :
    generate mappingInput { columnMapping := some [("repository", "repo")] }
      = generate mappingInput {} ∧
    generate mappingInput { columnMapping := some [("repository", "repo")] }
      = .ok ("repository,coverage_percent,category\r\n" ++
             "project-a,75.00,Si pasa el mínimo esperado") := by
  exact ⟨by decide, by decide⟩

/-- A fetched project used by the orchestrator runs. -/
def projA : ProjectDataM :=
  { name := "project-a", key := "project-a", coveragePercent := .fin 75 }

/-- A configuration that passes `validateConfig`. -/
def goodConfig : ReportConfigM :=
  { sonarqube := { baseUrl := "https://sonar.example.com", token := "secret-token" }
    threshold := 50
    csv := {}
    filters := []
    outputPath := none }

/-- An environment in which every collaborator succeeds. -/
def baseEnv : Env :=
  { isValidUrl := fun _ => true
    authResult := .ok ()
    fetchResult := .ok [projA]
    writeRaw := .ok () }

/-- C2 counterexample: with an output path configured and the underlying
write failing, `generateReport` returns the wrapped error — the
`ReportResult` (and its `csvContent`) is never produced, so the in-memory
CSV content is *not* reported to the caller. -/
theorem write_failure_loses_result_counterexample :
    generateReport [] { baseEnv with writeRaw := .error "EACCES: permission denied" }
        { goodConfig with outputPath := some "report.csv" }
      = .error (.plainObject
          { name := "ReportError"
            message := "Error in generate phase: Failed to write CSV file to report.csv: EACCES: permission denied"
            phase := .generate
            cause := some "Failed to write CSV file to report.csv: EACCES: permission denied" }) := by
  rfl

/-- The items the orchestrator hands to the reporter are well-shaped, so
`validateData` always accepts them. -/
theorem validateData_toJsItem (cps : List CategorizedProjectM) :
    validateData (.arr (cps.map (·.toJsItem))) = true := by
  cases cps with
  | nil => rfl
  | cons cp rest =>
    simp only [validateData]
    rw [if_neg (by simp), List.all_eq_true]
    intro it hit
    rw [List.mem_map] at hit
    obtain ⟨cp', _, rfl⟩ := hit
    rfl

/-- Consequently the reporter's `generate` cannot throw on the orchestrator's
classified collection. -/
theorem generate_categorized_ok (cps : List CategorizedProjectM)
    (config : CsvConfigOpt) :
    ∃ s, generate (.arr (cps.map (·.toJsItem))) config = .ok s := by
  unfold generate generateDetailed
  rw [validateData_toJsItem cps]
  exact ⟨_, rfl⟩

/-- C2 (amended): when the optional write of the CSV fails, the failure is
surfaced to the caller as a wrapped error (phase tag `generate`), and the
run does **not** report the in-memory CSV content: `generateReport` returns
the error instead of the report result, so the generated CSV is lost to the
caller. -/
theorem write_failure_surfaced (filters : List (FilterStrategy ProjectDataM))
    (env : Env) (config : ReportConfigM) (path m : String)
    (projects : List ProjectDataM) (categorized : List CategorizedProjectM)
    (h1 : validateConfigInner env config = .ok true)
    (h2 : env.authResult = .ok ())
    (h3 : env.fetchResult = .ok projects)
    (h4 : classifyProjects (applyFilters filters projects) config.threshold
            = .ok categorized)
    (h6 : config.outputPath = some path)
    (h7 : env.writeRaw = .error m) :
    generateReport filters env config
      = .error (.plainObject
          (wrapError
            (.errorInstance ("Failed to write CSV file to " ++ path ++ ": " ++ m))
            .generate)) := by
  obtain ⟨s, hs⟩ := generate_categorized_ok categorized config.csv
  simp [generateReport, validateConfig, h1, h2, h3, h4, hs, h6, h7, writeToFile]

/-- Witness for `write_failure_surfaced`: a concrete run with one project
and a failing write. -/
theorem write_failure_surfaced_witness :
    generateReport [] { baseEnv with writeRaw := .error "disk full" }
        { goodConfig with outputPath := some "out.csv" }
      = .error (.plainObject
          (wrapError
            (.errorInstance ("Failed to write CSV file to " ++ "out.csv" ++ ": " ++ "disk full"))
            .generate)) :=
  write_failure_surfaced [] _ _ "out.csv" "disk full" [projA]
    [{ project := projA, category := .SI_PASA_MINIMO, threshold := 50 }]
    rfl rfl rfl rfl rfl rfl

/-- Every error `generateReport` produces is the single `catch`'s
`wrapError(..., 'generate')` object. -/
theorem generateReport_error_shape (filters : List (FilterStrategy ProjectDataM))
    (env : Env) (config : ReportConfigM) :
    ∀ e, generateReport filters env config = .error e →
      ∃ x, e = .plainObject (wrapError x .generate) := by
  intro e he
  unfold generateReport at he
  repeat
    first
    | (injection he with h; exact ⟨_, h.symm⟩)
    | exact Except.noConfusion he
    | split at he
    | dsimp only [] at he

/-- C3 (amended): every failure during `generateReport` is wrapped and
re-raised by the orchestrator's single `catch` with the phase tag
`generate`, whatever phase actually failed; no error is swallowed and no
later phase runs after a failed one.  In particular a fetch failure is
re-raised with phase `generate` (not `fetch`) and its original message as
cause, while a configuration failure — already wrapped with phase `config`
inside `validateConfig` — is wrapped a second time, and because the first
wrapper is not an `Error` instance the second wrap reports
"Unknown error occurred" and drops the original cause. -/
theorem generateReport_wraps_with_generate
    (filters : List (FilterStrategy ProjectDataM)) (env : Env)
    (config : ReportConfigM) :
    (∀ e, generateReport filters env config = .error e →
      ∃ o, e = .plainObject o ∧ o.name = "ReportError" ∧ o.phase = .generate ∧
        ∃ m, o.message = "Error in generate phase: " ++ m) ∧
    (∀ m, validateConfigInner env config = .ok true → env.authResult = .ok () →
      env.fetchResult = .error m →
      generateReport filters env config
        = .error (.plainObject
            { name := "ReportError"
              message := "Error in generate phase: " ++ m
              phase := .generate
              cause := some m })) ∧
    (∀ m, validateConfigInner env config = .error m →
      generateReport filters env config
        = .error (.plainObject
            { name := "ReportError"
              message := "Error in generate phase: Unknown error occurred"
              phase := .generate
              cause := none })) := by
  refine ⟨?_, ?_, ?_⟩
  · intro e he
    obtain ⟨x, rfl⟩ := generateReport_error_shape filters env config e he
    refine ⟨wrapError x .generate, rfl, rfl, rfl, ?_⟩
    cases x with
    | errorInstance m => exact ⟨m, rfl⟩
    | plainObject o => exact ⟨"Unknown error occurred", rfl⟩
  · intro m h1 h2 h3
    simp [generateReport, validateConfig, h1, h2, h3, wrapError, Phase.str]
  · intro m h1
    simp [generateReport, validateConfig, h1, wrapError, Phase.str]

/-- Witness for `generateReport_wraps_with_generate`: a concrete run whose
fetch fails. -/
theorem generateReport_wraps_witness :
    generateReport [] { baseEnv with fetchResult := .error "Network request failed" }
        goodConfig
      = .error (.plainObject
          { name := "ReportError"
            message := "Error in generate phase: " ++ "Network request failed"
            phase := .generate
            cause := some "Network request failed" }) :=
  (generateReport_wraps_with_generate [] _ goodConfig).2.1
    "Network request failed" rfl rfl rfl

/-- C3 counterexample: a fetch failure is re-raised with phase `generate`,
not with phase `fetch` as the claim states. -/
theorem fetch_failure_phase_counterexample :
    generateReport [] { baseEnv with fetchResult := .error "Network down" } goodConfig
      = .error (.plainObject
          { name := "ReportError"
            message := "Error in generate phase: Network down"
            phase := .generate
            cause := some "Network down" }) ∧
    Phase.generate ≠ Phase.fetch := by
  exact ⟨rfl, by decide⟩

/-- C9: `generateReport` filters with the constructor-injected strategies
only; the `filters` field of the `ReportConfig` argument is never read, so
two runs differing only in `config.filters` produce the same report — the
same CSV content, project count and category counts (the only difference in
the results is the configuration echoed back inside `metadata`). -/
theorem generateReport_ignores_config_filters
    (filters : List (FilterStrategy ProjectDataM)) (env : Env)
    (config : ReportConfigM) (f₁ f₂ : List (FilterStrategy ProjectDataM)) :
    (generateReport filters env { config with filters := f₁ }).map
        (fun r => (r.csvContent, r.projectCount, r.categoryCounts))
      = (generateReport filters env { config with filters := f₂ }).map
          (fun r => (r.csvContent, r.projectCount, r.categoryCounts)) := by
  cases config with
  | mk sq th csvc fs op =>
    simp only [generateReport, validateConfig, validateConfigInner]
    repeat'
      first
      | rfl
      | split
    all_goals simp_all

/-- C10: every error raised by `generateReport` and by `validateConfig` is
the plain object produced by `wrapError`'s cast — it carries
`name = "ReportError"`, a message prefixed with the phase, a `phase` field,
and the original cause whenever the caught value was an `Error` instance —
and, never having gone through the `ReportError` (or `Error`) constructor,
it is not an `instanceof Error`. -/
theorem raised_errors_are_plain_objects
    (filters : List (FilterStrategy ProjectDataM)) (env : Env)
    (config : ReportConfigM) :
    (∀ e, generateReport filters env config = .error e →
      e.instanceOfError = false ∧
      ∃ x, e = .plainObject (wrapError x .generate) ∧
        (wrapError x .generate).name = "ReportError" ∧
        (wrapError x .generate).phase = .generate ∧
        ∀ m, x = .errorInstance m →
          (wrapError x .generate).message = "Error in generate phase: " ++ m ∧
          (wrapError x .generate).cause = some m) ∧
    (∀ e, validateConfig env config = .error e →
      e.instanceOfError = false ∧
      ∃ m, e = .plainObject (wrapError (.errorInstance m) .config) ∧
        (wrapError (.errorInstance m) .config).name = "ReportError" ∧
        (wrapError (.errorInstance m) .config).phase = .config ∧
        (wrapError (.errorInstance m) .config).message
          = "Error in config phase: " ++ m ∧
        (wrapError (.errorInstance m) .config).cause = some m) := by
  constructor
  · intro e he
    obtain ⟨x, rfl⟩ := generateReport_error_shape filters env config e he
    refine ⟨rfl, x, rfl, rfl, rfl, ?_⟩
    rintro m rfl
    exact ⟨rfl, rfl⟩
  · intro e he
    unfold validateConfig at he
    split at he
    · exact Except.noConfusion he
    · injection he with h
      exact ⟨h ▸ rfl, _, h.symm, rfl, rfl, rfl, rfl⟩

/-- Witness for `raised_errors_are_plain_objects`: a run with a failing
authentication, and a config validation with a missing token. -/
theorem raised_errors_witness :
    ((JsThrown.plainObject
        { name := "ReportError"
          message := "Error in generate phase: Authentication failed"
          phase := .generate
          cause := some "Authentication failed" }).instanceOfError = false ∧
      ∃ x, (JsThrown.plainObject
          { name := "ReportError"
            message := "Error in generate phase: Authentication failed"
            phase := .generate
            cause := some "Authentication failed" })
          = .plainObject (wrapError x .generate) ∧
        (wrapError x .generate).name = "ReportError" ∧
        (wrapError x .generate).phase = .generate ∧
        ∀ m, x = .errorInstance m →
          (wrapError x .generate).message = "Error in generate phase: " ++ m ∧
          (wrapError x .generate).cause = some m) :=
  (raised_errors_are_plain_objects []
      { baseEnv with authResult := .error "Authentication failed" } goodConfig).1
    _ rfl

end SonarCoverage
